import Mathlib

/-!
Shallow embedding of the core of the `elevenlabs-music-mcp` repository:
the Generation Client (`src/music_generator.py`) and the Preference Store
(`src/preference_learner.py`).

Python machine types are mapped as follows: `bytes` becomes `List Nat`,
`str` becomes `String`, `int` becomes `Int` (or `Nat` where the source
value is a count that is never negative), `None`-able values become
`Option`, raised exceptions become `Except PyExn`.  The HTTP transport is
an environment parameter: each outbound request either raises an exception
or delivers a `Response` whose observations (`status`, `read`, `text`,
`json`, headers) are exactly the observations the Python code makes of an
`aiohttp` response (the repository's own tests mock a response the same
way, as independent `status`/`read`/`text`/`json` fields).
-/

deriving instance DecidableEq for Except

namespace MusicMCP

/-- Python exceptions that the Generation Client can raise or observe.
`transportError` stands for the transient transport exceptions
(`aiohttp.ClientError`, `asyncio.TimeoutError`); `jsonDecodeError` for a
`json` parse failure (e.g. `json.loads` on a malformed string);
`otherExn` for any other `Exception`.  The first four mirror the exception
classes declared at the top of `music_generator.py`. -/
inductive PyExn where
  | copyrightError (message : String) (suggestion : Option String)
  | rateLimitError (message : String)
  | apiError (message : String) (status_code : Option Int)
  | transportError (message : String)
  | jsonDecodeError (message : String)
  | otherExn (message : String)
deriving DecidableEq, Repr

/-- Python `str(e)` for the exceptions above: each carries its message. -/
def PyExn.str : PyExn → String
  | .copyrightError m _ => m
  | .rateLimitError m => m
  | .apiError m _ => m
  | .transportError m => m
  | .jsonDecodeError m => m
  | .otherExn m => m

/-- Membership of the `except (aiohttp.ClientError, asyncio.TimeoutError)`
clause in `_make_request_with_retry`. -/
def PyExn.isTransient : PyExn → Bool
  | .transportError _ => true
  | _ => false

/-- Rendering of an `Optional` string in a Python f-string:
`None` prints as `"None"`. -/
def fstrOpt : Option String → String
  | none => "None"
  | some s => s

/-- A decoded JSON value attached as a composition plan.  The code treats
plans opaquely (it either passes the caller's plan through, uses the empty
dict `{}`, or decodes the `x-composition-plan` header), so the model keeps
them opaque: `emptyObj` is `{}`, `obj s` is the value decoded from the
header text `s`, `given s` is a caller-supplied plan identified by `s`. -/
inductive Plan where
  | emptyObj : Plan
  | obj (s : String) : Plan
  | given (s : String) : Plan
deriving DecidableEq, Repr

/-- The three fields of the `error` object of a `400` body that the code
reads with `.get`: `error_info.get('type')`, `.get('message')`,
`.get('suggested_prompt')`.  A body whose `error` key is absent is the
record with all fields `none` (Python's `.get('error', {})`). -/
structure ErrorInfo where
  type : Option String
  message : Option String
  suggested_prompt : Option String
deriving DecidableEq, Repr

/-- Observations of one delivered HTTP response.  `read`, `text` and
`json` are the outcomes of `await response.read()` / `.text()` /
`.json()` (each can raise); `planHeader` is the `x-composition-plan`
header when present, paired with the outcome of `json.loads` on it;
`retryAfter` is the parsed `Retry-After` header when present. -/
structure Response where
  status : Int
  read : Except PyExn (List Nat)
  text : Except PyExn String
  json : Except PyExn ErrorInfo
  planHeader : Option (Except PyExn Plan)
  retryAfter : Option Nat
deriving DecidableEq, Repr

/-- Behaviour of one outbound request: the request call itself raises, or
a response is delivered. -/
inductive PostOutcome where
  | raises (e : PyExn)
  | response (r : Response)
deriving DecidableEq, Repr

/-- `MusicGenerator.__init__` state (the fields the control flow reads). -/
structure MusicGenerator where
  api_key : String
  base_url : String := "https://api.elevenlabs.io/v1"
  timeout : Nat := 30
  max_retries : Nat := 3
deriving DecidableEq, Repr

/-- `MusicResult` dataclass from `music_generator.py`. -/
structure MusicResult where
  success : Bool
  audio_path : Option String := none
  audio_data : Option (List Nat) := none
  composition_plan : Option Plan := none
  duration_ms : Option Int := none
  error : Option String := none
  suggested_prompt : Option String := none
deriving DecidableEq, Repr

/-- Observable events of a Generation Client call: the `k`-th outbound
HTTP request, and a sleep of a number of seconds. -/
inductive RetryEvent where
  | request (k : Nat)
  | sleep (secs : Nat)
deriving DecidableEq, Repr

/-- Number of outbound requests in an event trace. -/
def requestCount (tr : List RetryEvent) : Nat :=
  tr.countP fun e => match e with | .request _ => true | .sleep _ => false

/-- The sleep durations of an event trace, in order. -/
def sleepSecs : List RetryEvent → List Nat
  | [] => []
  | .request _ :: rest => sleepSecs rest
  | .sleep s :: rest => s :: sleepSecs rest

/-- The body of the `try` block of `generate_simple` (lines 184-255):
one `session.post`, then the `if`/`elif` chain on `response.status`.
Returns the `MusicResult` or the exception the block raises. -/
def generateSimpleBody (duration_ms : Option Int) (post : PostOutcome) :
    Except PyExn MusicResult :=
  match post with
  | .raises e => .error e
  | .response r =>
    if r.status = 200 then
      match r.read with
      | .error e => .error e
      | .ok audio_data =>
        match (match r.planHeader with
               | none => Except.ok Plan.emptyObj
               | some parsed => parsed) with
        | .error e => .error e
        | .ok composition_plan =>
          .ok { success := true, audio_data := some audio_data,
                composition_plan := some composition_plan,
                duration_ms := duration_ms }
    else if r.status = 400 then
      match r.json with
      | .error e => .error e
      | .ok error_info =>
        if error_info.type = some "bad_prompt" then
          .ok { success := false,
                error := some ("Copyright detected: " ++ fstrOpt error_info.message),
                suggested_prompt := some (error_info.suggested_prompt.getD "") }
        else
          .ok { success := false,
                error := some (error_info.message.getD "Bad request") }
    else if r.status = 429 then
      .ok { success := false,
            error := some "Rate limit exceeded. Please try again in a moment." }
    else if r.status = 401 then
      .ok { success := false,
            error := some "Invalid API key. Please check your ELEVENLABS_API_KEY." }
    else
      match r.text with
      | .error e => .error e
      | .ok error_text =>
        .ok { success := false,
              error := some ("API error (" ++ toString r.status ++ "): " ++ error_text) }

/-- The `except` handlers of `generate_simple` (lines 257-277):
`except CopyrightError` keeps the message and suggestion,
`except RateLimitError` keeps the message, `except Exception` wraps
anything else as an unexpected error.  Every branch yields a result with
`success = False`. -/
def handleSimpleExn (e : PyExn) : MusicResult :=
  match e with
  | .copyrightError m sugg =>
      { success := false, error := some m, suggested_prompt := sugg }
  | .rateLimitError m => { success := false, error := some m }
  | e => { success := false, error := some ("Unexpected error: " ++ e.str) }

/-- `generate_simple` (lines 162-277): the `try` body above wrapped in the
`except` handlers.  The outer `Except` is what the *caller* of
`generate_simple` sees: `.ok` when a `MusicResult` is returned, `.error`
if an exception were to escape (the handlers make that impossible, which
claim C4 states).  The transport is a map from request index to
behaviour; the function also returns its event trace. -/
def generate_simple (g : MusicGenerator) (prompt : String)
    (duration_ms : Option Int) (transport : Nat → PostOutcome) :
    Except PyExn MusicResult × List RetryEvent :=
  let _ := g
  let _ := prompt
  let result :=
    match generateSimpleBody duration_ms (transport 0) with
    | .ok res => Except.ok res
    | .error e => Except.ok (handleSimpleExn e)
  (result, [.request 0])

/-- The body of the `try` block of `generate_structured` (lines 296-336):
one `session.post`; on `200` the caller's plan is attached; on `400` only
the message is surfaced (no `bad_prompt` branch); otherwise a generic
error with the status and the response text. -/
def generateStructuredBody (composition_plan : Plan) (post : PostOutcome) :
    Except PyExn MusicResult :=
  match post with
  | .raises e => .error e
  | .response r =>
    if r.status = 200 then
      match r.read with
      | .error e => .error e
      | .ok audio_data =>
        .ok { success := true, audio_data := some audio_data,
              composition_plan := some composition_plan }
    else if r.status = 400 then
      match r.json with
      | .error e => .error e
      | .ok error_info =>
        .ok { success := false,
              error := some (error_info.message.getD "Bad request") }
    else
      match r.text with
      | .error e => .error e
      | .ok error_text =>
        .ok { success := false,
              error := some ("API error (" ++ toString r.status ++ "): " ++ error_text) }

/-- The single `except Exception` handler of `generate_structured`
(lines 338-343). -/
def handleStructuredExn (e : PyExn) : MusicResult :=
  { success := false, error := some ("Unexpected error: " ++ e.str) }

/-- `generate_structured` (lines 279-343): the body above wrapped in the
single `except Exception` handler. -/
def generate_structured (g : MusicGenerator) (composition_plan : Plan)
    (strict_duration : Bool) (transport : Nat → PostOutcome) :
    Except PyExn MusicResult × List RetryEvent :=
  let _ := g
  let _ := strict_duration
  let result :=
    match generateStructuredBody composition_plan (transport 0) with
    | .ok res => Except.ok res
    | .error e => Except.ok (handleStructuredExn e)
  (result, [.request 0])

/-- The final `raise APIError(f"Request failed after {max_retries}
attempts: {last_exception}")` message (line 160). -/
def retryFailMsg (max_retries : Nat) (last_exception : Option PyExn) : String :=
  "Request failed after " ++ toString max_retries ++ " attempts: " ++
    (match last_exception with | none => "None" | some e => e.str)

/-- One iteration step of the `for attempt in range(max_retries)` loop of
`_make_request_with_retry` (lines 109-158), written as recursion on the
number of remaining iterations (`remaining = max_retries - attempt`; the
Python guard `attempt < max_retries - 1` is `remaining > 1`).  Produces
the event trace and either the `200` response or the raised exception. -/
def retryGo (behavior : Nat → PostOutcome) (max_retries : Nat) :
    Nat → Nat → Option PyExn → List RetryEvent × Except PyExn Response
  | 0, _, last_exception =>
      ([], .error (.apiError (retryFailMsg max_retries last_exception) none))
  | remaining + 1, attempt, last_exception =>
    match behavior attempt with
    | .raises e =>
      if e.isTransient then
        let rest := retryGo behavior max_retries remaining (attempt + 1) (some e)
        if remaining > 0 then
          (.request attempt :: .sleep (2 ^ attempt) :: rest.1, rest.2)
        else
          (.request attempt :: rest.1, rest.2)
      else
        ([.request attempt], .error e)
    | .response r =>
      if r.status = 200 then
        ([.request attempt], .ok r)
      else if r.status = 429 then
        let retry_after := r.retryAfter.getD (2 ^ attempt)
        if remaining > 0 then
          let rest := retryGo behavior max_retries remaining (attempt + 1) last_exception
          (.request attempt :: .sleep retry_after :: rest.1, rest.2)
        else
          ([.request attempt],
           .error (.rateLimitError "API rate limit exceeded. Please try again later."))
      else if r.status = 400 then
        match r.json with
        | .error e =>
          if e.isTransient then
            let rest := retryGo behavior max_retries remaining (attempt + 1) (some e)
            if remaining > 0 then
              (.request attempt :: .sleep (2 ^ attempt) :: rest.1, rest.2)
            else
              (.request attempt :: rest.1, rest.2)
          else
            ([.request attempt], .error e)
        | .ok error_info =>
          if error_info.type = some "bad_prompt" then
            ([.request attempt],
             .error (.copyrightError
               (error_info.message.getD "Copyrighted content detected")
               (some (error_info.suggested_prompt.getD ""))))
          else
            ([.request attempt],
             .error (.apiError (error_info.message.getD "Bad request") (some 400)))
      else if r.status = 401 then
        ([.request attempt], .error (.apiError "Invalid API key" (some 401)))
      else
        match r.text with
        | .error e =>
          if e.isTransient then
            let rest := retryGo behavior max_retries remaining (attempt + 1) (some e)
            if remaining > 0 then
              (.request attempt :: .sleep (2 ^ attempt) :: rest.1, rest.2)
            else
              (.request attempt :: rest.1, rest.2)
          else
            ([.request attempt], .error e)
        | .ok error_text =>
          ([.request attempt],
           .error (.apiError ("API error: " ++ error_text) (some r.status)))

/-- `_make_request_with_retry` (lines 86-160): run the loop from
`attempt = 0` with `last_exception = None`. -/
def make_request_with_retry (g : MusicGenerator) (behavior : Nat → PostOutcome) :
    List RetryEvent × Except PyExn Response :=
  retryGo behavior g.max_retries g.max_retries 0 none

/-! ### Preference Store (`src/preference_learner.py`) -/

/-- `MusicPreference` dataclass.  `timestamp` is a `String` because
`__post_init__` guarantees it is set on every constructed record. -/
structure MusicPreference where
  prompt : String
  liked : Bool
  context : Option String := none
  activity : Option String := none
  mood : Option String := none
  timestamp : String
  duration_ms : Option Int := none
deriving DecidableEq, Repr

/-- Python truthiness of an `Optional[str]`: `None` and `""` are falsy. -/
def strTruthy : Option String → Bool
  | none => false
  | some s => !(s == "")

/-- The `MusicPreference(...)` constructor including `__post_init__`
(lines 30-32): when the given timestamp is falsy (`None` or `""`) it is
replaced by `datetime.now().isoformat()`, passed here as `now`. -/
def mkMusicPreference (prompt : String) (liked : Bool)
    (context activity mood : Option String) (timestamp : Option String)
    (duration_ms : Option Int) (now : String) : MusicPreference :=
  { prompt := prompt, liked := liked, context := context,
    activity := activity, mood := mood,
    timestamp := if strTruthy timestamp then timestamp.getD now else now,
    duration_ms := duration_ms }

/-- `record_preference` (lines 76-108): append one freshly constructed
record (the `save()` call writes the collection to disk and does not
change it, so the model returns the new collection). -/
def record_preference (prefs : List MusicPreference) (prompt : String)
    (liked : Bool) (context activity mood : Option String)
    (duration_ms : Option Int) (now : String) : List MusicPreference :=
  prefs ++ [mkMusicPreference prompt liked context activity mood none duration_ms now]

/-- The keys `record_feedback` reads from its optional `context` dict via
`context.get('context') / .get('activity') / .get('mood')`. -/
structure FeedbackContext where
  context : Option String
  activity : Option String
  mood : Option String
deriving DecidableEq, Repr

/-- `record_feedback` (lines 135-157): `liked = feedback_type in
["like", "replay"]`, then delegate to `record_preference`. -/
def record_feedback (prefs : List MusicPreference) (prompt : String)
    (feedback_type : String) (context : Option FeedbackContext)
    (now : String) : List MusicPreference :=
  let liked := feedback_type == "like" || feedback_type == "replay"
  record_preference prefs prompt liked
    (context.bind (·.context)) (context.bind (·.activity)) (context.bind (·.mood))
    none now

/-- The collection loop of `get_recommendations` (lines 195-204): walk
the candidates, appending each first-seen prompt, checking
`len(recommendations) >= limit` *after* the conditional append and
breaking when it holds.  (The break check is written once per branch of
the membership test; both branches perform exactly the Python loop
body.) -/
def recGo (limit : Int) : List MusicPreference → List String → List String → List String
  | [], _, recommendations => recommendations
  | pref :: rest, seen_prompts, recommendations =>
    if seen_prompts.contains pref.prompt then
      if limit ≤ (recommendations.length : Int) then recommendations
      else recGo limit rest seen_prompts recommendations
    else
      if limit ≤ ((recommendations ++ [pref.prompt]).length : Int) then
        recommendations ++ [pref.prompt]
      else recGo limit rest (pref.prompt :: seen_prompts)
        (recommendations ++ [pref.prompt])

/-- `get_recommendations` (lines 159-207): filter to liked records
(empty answer when none), narrow by truthy `activity` then truthy `mood`
by exact equality, fall back to the full liked set when fewer than 3
candidates remain, then collect distinct prompts most-recent-first. -/
def get_recommendations (prefs : List MusicPreference)
    (activity mood : Option String) (limit : Int) : List String :=
  let liked_prefs := prefs.filter (·.liked)
  if liked_prefs.isEmpty then []
  else
    let filtered := if strTruthy activity then
        liked_prefs.filter (fun p => p.activity == activity) else liked_prefs
    let filtered := if strTruthy mood then
        filtered.filter (fun p => p.mood == mood) else filtered
    let filtered := if filtered.length < 3 then liked_prefs else filtered
    recGo limit filtered.reverse [] []

/-- One `mood_counts[tag] += 1` step on a `defaultdict(int)` whose
iteration order is key first-insertion order. -/
def bumpCount (counts : List (String × Nat)) (t : String) : List (String × Nat) :=
  if counts.any (fun kv => kv.1 == t) then
    counts.map (fun kv => if kv.1 == t then (kv.1, kv.2 + 1) else kv)
  else counts ++ [(t, 1)]

/-- Build the `defaultdict(int)` counts in iteration order: keys in
first-encounter order, each with its total count. -/
def countTags (tags : List String) : List (String × Nat) :=
  tags.foldl bumpCount []

/-- Stable insertion (descending by count): the new item goes after every
earlier item whose count is at least as large, modelling Python's stable
`sorted(..., key=lambda x: x[1], reverse=True)`. -/
def insertByCount (x : String × Nat) : List (String × Nat) → List (String × Nat)
  | [] => [x]
  | y :: ys => if x.2 ≤ y.2 then y :: insertByCount x ys else x :: y :: ys

/-- Stable sort by descending count. -/
def sortByCountDesc (l : List (String × Nat)) : List (String × Nat) :=
  l.foldl (fun acc x => insertByCount x acc) []

/-- `get_favorite_moods` (lines 209-229). -/
def get_favorite_moods (prefs : List MusicPreference) (limit : Nat) : List String :=
  let liked_prefs := prefs.filter (fun p => p.liked && strTruthy p.mood)
  if liked_prefs.isEmpty then []
  else
    let counts := countTags (liked_prefs.map (fun p => p.mood.getD ""))
    ((sortByCountDesc counts).take limit).map (·.1)

/-- `get_favorite_activities` (lines 231-251). -/
def get_favorite_activities (prefs : List MusicPreference) (limit : Nat) : List String :=
  let liked_prefs := prefs.filter (fun p => p.liked && strTruthy p.activity)
  if liked_prefs.isEmpty then []
  else
    let counts := countTags (liked_prefs.map (fun p => p.activity.getD ""))
    ((sortByCountDesc counts).take limit).map (·.1)

/-- The dict returned by `get_statistics`. -/
structure Statistics where
  total_generations : Nat
  liked_count : Nat
  disliked_count : Nat
  like_rate : Rat
  favorite_moods : List String
  favorite_activities : List String
  most_recent : List MusicPreference
deriving DecidableEq, Repr

/-- `get_statistics` (lines 253-271).  `liked / total` is modelled as
exact rational division (`0` when `total == 0`); `self.preferences[-5:]`
is the last five records. -/
def get_statistics (prefs : List MusicPreference) : Statistics :=
  let total := prefs.length
  let liked := (prefs.filter (·.liked)).length
  { total_generations := total
    liked_count := liked
    disliked_count := total - liked
    like_rate := if 0 < total then (liked : Rat) / (total : Rat) else 0
    favorite_moods := get_favorite_moods prefs 3
    favorite_activities := get_favorite_activities prefs 3
    most_recent := prefs.drop (prefs.length - 5) }

/-- One JSON object of the persisted preference array: the dict produced
by `asdict(p)` and consumed by `MusicPreference(**p)`. -/
structure PrefDict where
  prompt : String
  liked : Bool
  context : Option String
  activity : Option String
  mood : Option String
  timestamp : Option String
  duration_ms : Option Int
deriving DecidableEq, Repr

/-- `asdict(p)` on a `MusicPreference`. -/
def asdict (p : MusicPreference) : PrefDict :=
  { prompt := p.prompt, liked := p.liked, context := p.context,
    activity := p.activity, mood := p.mood,
    timestamp := some p.timestamp, duration_ms := p.duration_ms }

/-- `MusicPreference(**p)` on one loaded dict (runs `__post_init__`). -/
def fromDict (now : String) (d : PrefDict) : MusicPreference :=
  mkMusicPreference d.prompt d.liked d.context d.activity d.mood
    d.timestamp d.duration_ms now

/-- `export_preferences` (lines 294-304): serialize the collection as a
JSON array of `asdict` objects. -/
def export_preferences (prefs : List MusicPreference) : List PrefDict :=
  prefs.map asdict

/-- `import_preferences` (lines 306-324).  `fileData` is the outcome of
`open` + `json.load` + the `MusicPreference(**p)` comprehension, all of
which run before any mutation; on failure the exception propagates and
the collection is returned unchanged, otherwise the imported records are
appended (`merge=True`) or replace the collection (`merge=False`). -/
def import_preferences (prefs : List MusicPreference)
    (fileData : Except PyExn (List PrefDict)) (merge : Bool) (now : String) :
    Except PyExn Unit × List MusicPreference :=
  match fileData with
  | .error e => (.error e, prefs)
  | .ok data =>
    let imported_prefs := data.map (fromDict now)
    (.ok (), if merge then prefs ++ imported_prefs else imported_prefs)

/-- `load` (lines 55-65): when the preferences file exists
(`fileData = some ...`), a load failure resets the collection to empty;
when it does not exist the collection is left as it was. -/
def load (prefs : List MusicPreference)
    (fileData : Option (Except PyExn (List PrefDict))) (now : String) :
    List MusicPreference :=
  match fileData with
  | none => prefs
  | some (.error _) => []
  | some (.ok data) => data.map (fromDict now)

/-! ### Specification-side definitions and concrete inputs -/

/-- The collection walk as the specification words it: the first-seen
distinct prompts of the candidates, relative to an already-seen set. -/
def dedupNew (seen : List String) : List MusicPreference → List String
  | [] => []
  | p :: rest =>
    if seen.contains p.prompt then dedupNew seen rest
    else p.prompt :: dedupNew (p.prompt :: seen) rest

/-- Modelled from the spec's words for comparison with
`get_recommendations`: keep liked records (empty if none), narrow by the
given filters, fall back to the full liked set below 3 candidates, then
take the first `limit` first-seen distinct prompts most-recent-first
("collect until `limit` distinct prompts are collected or the candidate
set is exhausted"). -/
def spec_recommendations (prefs : List MusicPreference)
    (activity mood : Option String) (limit : Int) : List String :=
  let liked_prefs := prefs.filter (·.liked)
  if liked_prefs.isEmpty then []
  else
    let filtered := if strTruthy activity then
        liked_prefs.filter (fun p => p.activity == activity) else liked_prefs
    let filtered := if strTruthy mood then
        filtered.filter (fun p => p.mood == mood) else filtered
    let filtered := if filtered.length < 3 then liked_prefs else filtered
    (dedupNew [] filtered.reverse).take limit.toNat

/-- The retry-helper trace the claim describes, starting at attempt
`att` with `rem` attempts remaining: each attempt is followed by a sleep
of `2 ^ attempt` seconds except the last. -/
def transientTraceFrom : Nat → Nat → List RetryEvent
  | _, 0 => []
  | att, rem + 1 =>
    if rem > 0 then
      .request att :: .sleep (2 ^ att) :: transientTraceFrom (att + 1) rem
    else [.request att]

/-- The transport behaviours on which `generate_simple` builds a success
result: a delivered `200` whose body read succeeds and whose optional
`x-composition-plan` header, when present, decodes. -/
def simpleSuccessBehavior (post : PostOutcome) : Bool :=
  match post with
  | .raises _ => false
  | .response r =>
    if r.status = 200 then
      (match r.read with | .ok _ => true | .error _ => false) &&
      (match r.planHeader with
       | none => true
       | some (.ok _) => true
       | some (.error _) => false)
    else false

/-- The transport behaviours on which `generate_structured` builds a
success result: a delivered `200` whose body read succeeds. -/
def structuredSuccessBehavior (post : PostOutcome) : Bool :=
  match post with
  | .raises _ => false
  | .response r =>
    if r.status = 200 then
      match r.read with | .ok _ => true | .error _ => false
    else false

/-- A generator built with the constructor defaults (`max_retries = 3`). -/
def genDefault : MusicGenerator := { api_key := "sk_test_key" }

/-- A `429` response, as the repository's own rate-limit test mocks it. -/
def resp429 : Response :=
  { status := 429, read := .error (.otherExn "no body"),
    text := .ok "Rate limit exceeded",
    json := .error (.jsonDecodeError "Expecting value"),
    planHeader := none, retryAfter := none }

/-- A `400` response whose error body is a `bad_prompt` rejection with a
suggested replacement prompt, as the repository's copyright test mocks
it. -/
def badPromptResp : Response :=
  { status := 400, read := .error (.otherExn "no body"), text := .ok "",
    json := .ok { type := some "bad_prompt",
                  message := some "Copyrighted content detected",
                  suggested_prompt := some "gentle piano music" },
    planHeader := none, retryAfter := none }

/-- A `200` response delivering audio bytes, with no plan header. -/
def resp200 : Response :=
  { status := 200, read := .ok [102, 97, 107, 101],
    text := .ok "", json := .error (.jsonDecodeError "Expecting value"),
    planHeader := none, retryAfter := none }

/-- A `200` response delivering audio bytes whose `x-composition-plan`
header is present but is not valid JSON, so `json.loads` raises. -/
def resp200badHeader : Response :=
  { status := 200, read := .ok [102, 97, 107, 101],
    text := .ok "", json := .error (.jsonDecodeError "Expecting value"),
    planHeader := some (.error (.jsonDecodeError
      "Expecting value: line 1 column 1 (char 0)")),
    retryAfter := none }

/-- A liked preference record with the given prompt and activity. -/
def mkLiked (prompt : String) (activity : Option String) : MusicPreference :=
  { prompt := prompt, liked := true, activity := activity,
    timestamp := "2025-01-01T00:00:00" }

/-- Three records: two liked, one disliked (the statistics example). -/
def statsSample : List MusicPreference :=
  [mkLiked "lo-fi beats" (some "coding"),
   mkLiked "ambient pads" (some "writing"),
   { prompt := "heavy metal", liked := false,
     timestamp := "2025-01-02T00:00:00" }]

/-- A transport whose every attempt raises a connection timeout. -/
def behTimeout : Nat → PostOutcome :=
  fun _ => .raises (.transportError "Connection timeout")

/-! ### Theorems -/

/-- C1 (counterexample): with the constructor default `max_retries = 3`
and a transport that answers `429`, `generate_simple` makes exactly one
outbound attempt — not `max_retries` — because it posts directly instead
of going through `_make_request_with_retry`. -/
theorem c1_counterexample :
    requestCount (generate_simple genDefault "lo-fi beats for coding" none
      (fun _ => .response resp429)).2 = 1 ∧
    genDefault.max_retries = 3 ∧ (1 : Nat) ≠ 3 :=
  ⟨rfl, rfl, by decide⟩

/-- C1 (amended): when the HTTP exchange yields a `429` response,
`generate_simple` makes exactly one outbound attempt, never sleeps, and
returns a non-success `MusicResult` whose error message describes the
rate limit — regardless of `max_retries`. -/
theorem c1_generate_simple_429 (g : MusicGenerator) (prompt : String)
    (duration_ms : Option Int) (transport : Nat → PostOutcome) (r : Response)
    (h0 : transport 0 = .response r) (h429 : r.status = 429) :
    (generate_simple g prompt duration_ms transport).1 =
      .ok { success := false,
            error := some "Rate limit exceeded. Please try again in a moment." } ∧
    requestCount (generate_simple g prompt duration_ms transport).2 = 1 ∧
    sleepSecs (generate_simple g prompt duration_ms transport).2 = [] := by
  refine ⟨?_, rfl, rfl⟩
  simp [generate_simple, generateSimpleBody, h0, h429]

/-- C1 (witness): the amended statement at a concrete `429` exchange. -/
theorem c1_witness :
    (generate_simple genDefault "test" none (fun _ => .response resp429)).1 =
      .ok { success := false,
            error := some "Rate limit exceeded. Please try again in a moment." } ∧
    requestCount (generate_simple genDefault "test" none
      (fun _ => .response resp429)).2 = 1 ∧
    sleepSecs (generate_simple genDefault "test" none
      (fun _ => .response resp429)).2 = [] :=
  c1_generate_simple_429 genDefault "test" none (fun _ => .response resp429)
    resp429 rfl rfl

/-- C2 (code bug evidence): on a `400` response whose error body is a
`bad_prompt` rejection carrying `suggested_prompt = "gentle piano
music"`, `generate_structured` returns a result with no suggested prompt
and an error that does not mention the copyright condition, although its
own error branch is annotated "same as generate_simple";
`generate_simple` on the same response does carry the suggestion through
unchanged. -/
theorem c2_structured_drops_suggested_prompt :
    (generate_structured genDefault (Plan.given "energetic electronic") false
        (fun _ => .response badPromptResp)).1 =
      .ok { success := false, error := some "Copyrighted content detected" } ∧
    (generate_simple genDefault "Beatles song" none
        (fun _ => .response badPromptResp)).1 =
      .ok { success := false,
            error := some "Copyright detected: Copyrighted content detected",
            suggested_prompt := some "gentle piano music" } :=
  ⟨rfl, rfl⟩

/-- C3 (counterexample): a `200` response whose `x-composition-plan`
header is present but malformed makes `json.loads` raise, so
`generate_simple` lands in the `except Exception` handler and returns a
non-success result even though the status was `200` and the prompt was
non-empty. -/
theorem c3_counterexample :
    (generate_simple genDefault "ambient pads" (some 30000)
        (fun _ => .response resp200badHeader)).1 =
      .ok { success := false,
            error := some
              "Unexpected error: Expecting value: line 1 column 1 (char 0)" } ∧
    resp200badHeader.status = 200 ∧ ("ambient pads" : String) ≠ "" :=
  ⟨rfl, rfl, by decide⟩

/-- C3 (amended): for every non-empty prompt and every `200` response
whose body read succeeds and whose optional `x-composition-plan` header,
when present, decodes, `generate_simple` returns success with the audio
bytes equal to the response body and `duration_ms` equal to the argument
(including `none`). -/
theorem c3_generate_simple_200 (g : MusicGenerator) (prompt : String)
    (duration_ms : Option Int) (transport : Nat → PostOutcome) (r : Response)
    (audio : List Nat) (hp : prompt ≠ "") (h0 : transport 0 = .response r)
    (h200 : r.status = 200) (hread : r.read = .ok audio)
    (hplan : r.planHeader = none ∨ ∃ plan, r.planHeader = some (.ok plan)) :
    ∃ plan, (generate_simple g prompt duration_ms transport).1 =
      .ok { success := true, audio_data := some audio,
            composition_plan := some plan, duration_ms := duration_ms } := by
  rcases hplan with h | ⟨plan, h⟩
  · exact ⟨Plan.emptyObj, by
      simp [generate_simple, generateSimpleBody, h0, h200, hread, h]⟩
  · exact ⟨plan, by
      simp [generate_simple, generateSimpleBody, h0, h200, hread, h]⟩

/-- C3 (witness): the amended statement at a concrete `200` exchange
with body bytes `[102, 97, 107, 101]` and a 30000 ms duration. -/
theorem c3_witness :
    ∃ plan, (generate_simple genDefault "lo-fi beats for coding" (some 30000)
        (fun _ => .response resp200)).1 =
      .ok { success := true, audio_data := some [102, 97, 107, 101],
            composition_plan := some plan, duration_ms := some 30000 } :=
  c3_generate_simple_200 genDefault "lo-fi beats for coding" (some 30000)
    (fun _ => .response resp200) resp200 [102, 97, 107, 101]
    (by decide) rfl rfl rfl (Or.inl rfl)

/-- While fewer than `L` prompts are collected, the collection loop
returns the already-collected prompts followed by the next first-seen
distinct prompts of the candidates, up to `L` in total. -/
theorem recGo_spec (L : Nat) :
    ∀ (xs : List MusicPreference) (seen recs : List String),
      recs.length < L →
      recGo (L : Int) xs seen recs =
        recs ++ (dedupNew seen xs).take (L - recs.length) := by
  intro xs
  induction xs with
  | nil =>
    intro seen recs h
    simp [recGo, dedupNew]
  | cons p rest ih =>
    intro seen recs h
    by_cases hc : seen.contains p.prompt
    · have hm : p.prompt ∈ seen := by simpa using hc
      have hbreak : ¬ ((L : Int) ≤ (recs.length : Int)) := by
        exact_mod_cast Nat.not_le.mpr h
      rw [recGo]
      simp only [hc, if_true, hbreak, if_false]
      rw [ih seen recs h]
      simp [dedupNew, hm]
    · have hm : p.prompt ∉ seen := by simpa using hc
      by_cases hfull : L ≤ recs.length + 1
      · have hone : L - recs.length = 1 := by omega
        have hbreak : (L : Int) ≤ ((recs ++ [p.prompt]).length : Int) := by
          simp only [List.length_append, List.length_cons, List.length_nil]
          exact_mod_cast hfull
        rw [recGo]
        simp only [hc, if_false, Bool.false_eq_true, hbreak, if_true]
        simp [dedupNew, hm, hone]
      · have hbreak : ¬ ((L : Int) ≤ ((recs ++ [p.prompt]).length : Int)) := by
          simp only [List.length_append, List.length_cons, List.length_nil]
          exact_mod_cast Nat.not_le.mpr (by omega)
        rw [recGo]
        simp only [hc, if_false, Bool.false_eq_true, hbreak, if_true]
        rw [ih (p.prompt :: seen) (recs ++ [p.prompt])
          (by simp; omega)]
        have htake : L - recs.length = (L - (recs.length + 1)) + 1 := by omega
        simp only [dedupNew, hc, Bool.false_eq_true, if_false, htake,
          List.take_succ_cons, List.length_append, List.length_cons,
          List.length_nil, List.append_assoc, List.singleton_append,
          Nat.zero_add]

/-- C5 (counterexample): with `limit = 0` the break check runs only
*after* a prompt has been appended, so `get_recommendations` still
returns one prompt where the claim's walk ("until `limit` prompts are
collected") collects none. -/
theorem c5_counterexample :
    get_recommendations [mkLiked "lo-fi beats" none] none none 0 =
      ["lo-fi beats"] ∧
    spec_recommendations [mkLiked "lo-fi beats" none] none none 0 = [] ∧
    ¬ (["lo-fi beats"] = ([] : List String)) :=
  ⟨rfl, rfl, by decide⟩

/-- C5 (amended): for every `limit ≥ 1`, `get_recommendations` returns
exactly the sequence the claim describes: liked records only (empty when
none), narrowed by the truthy activity then mood filters, replaced by the
full liked set when fewer than 3 candidates remain, walked
most-recent-first collecting first-seen distinct prompts until `limit`
are collected or the candidates are exhausted. -/
theorem c5_recommendations (prefs : List MusicPreference)
    (activity mood : Option String) (limit : Int) (h : 1 ≤ limit) :
    get_recommendations prefs activity mood limit =
      spec_recommendations prefs activity mood limit := by
  have hcast : limit = ((limit.toNat : Nat) : Int) := by omega
  simp only [get_recommendations, spec_recommendations]
  by_cases he : (List.filter (fun p => p.liked) prefs).isEmpty
  · simp only [he, if_true]
  · simp only [he, Bool.false_eq_true, if_false]
    rw [hcast, recGo_spec limit.toNat _ [] [] (by simp; omega)]
    simp only [List.length_nil, Nat.sub_zero, List.nil_append,
      Int.toNat_natCast]

/-- C5 (witness): the amended statement on a concrete store (three liked
records, two tagged "coding", one disliked) with an activity filter and
`limit = 5`. -/
theorem c5_witness :
    get_recommendations statsSample (some "coding") none 5 =
      spec_recommendations statsSample (some "coding") none 5 :=
  c5_recommendations statsSample (some "coding") none 5 (by decide)

/-- C9: `record_feedback` appends exactly one record, and its `liked`
flag is true exactly for the strings `"like"` and `"replay"` — every
other `feedback_type`, including strings outside the four documented
values, yields `liked = false`. -/
theorem c9_record_feedback_liked (prefs : List MusicPreference)
    (prompt feedback_type : String) (context : Option FeedbackContext)
    (now : String) :
    ∃ rec : MusicPreference,
      record_feedback prefs prompt feedback_type context now = prefs ++ [rec] ∧
      (rec.liked = true ↔ feedback_type = "like" ∨ feedback_type = "replay") := by
  refine ⟨_, rfl, ?_⟩
  simp [record_feedback, record_preference, mkMusicPreference]

/-- The `success` flag the `try` body of `generate_simple` computes
(taking `false` for a raised exception) is exactly the success behaviour
of the transport. -/
theorem generateSimpleBody_success_eq (duration_ms : Option Int)
    (post : PostOutcome) :
    (match generateSimpleBody duration_ms post with
     | .ok res => res.success
     | .error _ => false) = simpleSuccessBehavior post := by
  cases post with
  | raises e => rfl
  | response r =>
    by_cases h200 : r.status = 200
    · rcases hr : r.read with e | audio
      · simp [generateSimpleBody, simpleSuccessBehavior, h200, hr]
      · rcases hh : r.planHeader with _ | parsed
        · simp [generateSimpleBody, simpleSuccessBehavior, h200, hr, hh]
        · rcases hpl : parsed with e | plan <;>
            simp [generateSimpleBody, simpleSuccessBehavior, h200, hr, hh, hpl]
    · have hsb : simpleSuccessBehavior (.response r) = false := by
        simp [simpleSuccessBehavior, h200]
      rw [hsb]
      by_cases h400 : r.status = 400
      · rcases hj : r.json with e | info
        · simp [generateSimpleBody, h200, h400, hj]
        · by_cases hbp : info.type = some "bad_prompt" <;>
            simp [generateSimpleBody, h200, h400, hj, hbp]
      · by_cases h429 : r.status = 429
        · simp [generateSimpleBody, h200, h400, h429]
        · by_cases h401 : r.status = 401
          · simp [generateSimpleBody, h200, h400, h429, h401]
          · rcases ht : r.text with e | error_text <;>
              simp [generateSimpleBody, h200, h400, h429, h401, ht]

/-- The `success` flag the `try` body of `generate_structured` computes
(taking `false` for a raised exception) is exactly the success behaviour
of the transport. -/
theorem generateStructuredBody_success_eq (plan : Plan) (post : PostOutcome) :
    (match generateStructuredBody plan post with
     | .ok res => res.success
     | .error _ => false) = structuredSuccessBehavior post := by
  cases post with
  | raises e => rfl
  | response r =>
    by_cases h200 : r.status = 200
    · rcases hr : r.read with e | audio <;>
        simp [generateStructuredBody, structuredSuccessBehavior, h200, hr]
    · have hsb : structuredSuccessBehavior (.response r) = false := by
        simp [structuredSuccessBehavior, h200]
      rw [hsb]
      by_cases h400 : r.status = 400
      · rcases hj : r.json with e | info <;>
          simp [generateStructuredBody, h200, h400, hj]
      · rcases ht : r.text with e | error_text <;>
          simp [generateStructuredBody, h200, h400, ht]

/-- Every `except` handler of `generate_simple` yields a non-success
result. -/
theorem handleSimpleExn_success (e : PyExn) :
    (handleSimpleExn e).success = false := by
  cases e <;> rfl

/-- C4: whatever the transport does — any status, a malformed body
(failed `json()` or header decode), or a raised transport exception —
both public entry points return a `MusicResult` (`Except.ok`, never a
propagated exception), and `success` is true exactly on the genuine
success behaviours, so every failure is encoded as `success = false`. -/
theorem c4_no_exception_escapes (g : MusicGenerator) (prompt : String)
    (duration_ms : Option Int) (transport : Nat → PostOutcome) (plan : Plan)
    (strict_duration : Bool) (transport2 : Nat → PostOutcome) :
    (∃ res, (generate_simple g prompt duration_ms transport).1 = .ok res ∧
        res.success = simpleSuccessBehavior (transport 0)) ∧
    (∃ res, (generate_structured g plan strict_duration transport2).1 = .ok res ∧
        res.success = structuredSuccessBehavior (transport2 0)) := by
  constructor
  · have key := generateSimpleBody_success_eq duration_ms (transport 0)
    rcases hb : generateSimpleBody duration_ms (transport 0) with e | res
    · rw [hb] at key
      exact ⟨handleSimpleExn e, by simp [generate_simple, hb],
        by rw [handleSimpleExn_success]; exact key⟩
    · rw [hb] at key
      exact ⟨res, by simp [generate_simple, hb], key⟩
  · have key := generateStructuredBody_success_eq plan (transport2 0)
    rcases hb : generateStructuredBody plan (transport2 0) with e | res
    · rw [hb] at key
      exact ⟨handleStructuredExn e, by simp [generate_structured, hb],
        by show false = _; exact key⟩
    · rw [hb] at key
      exact ⟨res, by simp [generate_structured, hb], key⟩

/-- Running the retry loop from attempt `att` with `rem` iterations left
over a transport whose every attempt raises a transient transport
exception: every iteration fails and sleeps `2 ^ attempt` seconds except
the last, and the loop ends by raising the generic `APIError` that wraps
the most recent transport exception. -/
theorem retryGo_transient (behavior : Nat → PostOutcome) (msgs : Nat → String)
    (n : Nat) (hb : ∀ k, behavior k = .raises (.transportError (msgs k))) :
    ∀ (rem att : Nat) (last_exception : Option PyExn),
      retryGo behavior n rem att last_exception =
        (transientTraceFrom att rem,
         .error (.apiError (retryFailMsg n
           (match rem with
            | 0 => last_exception
            | _ + 1 => some (.transportError (msgs (att + rem - 1))))) none)) := by
  intro rem
  induction rem with
  | zero =>
    intro att last_exception
    simp [retryGo, transientTraceFrom]
  | succ m ih =>
    intro att last_exception
    rw [retryGo, hb att]
    cases m with
    | zero =>
      simp [PyExn.isTransient, ih, transientTraceFrom]
    | succ m' =>
      have harith : att + 1 + (m' + 1) - 1 = att + (m' + 1 + 1) - 1 := by omega
      simp [PyExn.isTransient, ih, transientTraceFrom, harith]

/-- The number of requests in the all-transient trace is the number of
attempts. -/
theorem transientTraceFrom_requestCount (rem : Nat) :
    ∀ att, requestCount (transientTraceFrom att rem) = rem := by
  induction rem with
  | zero => intro att; rfl
  | succ m ih =>
    intro att
    cases m with
    | zero => rfl
    | succ m' =>
      have h := ih (att + 1)
      simp [transientTraceFrom, requestCount, List.countP_cons] at h ⊢
      omega

/-- The sleeps of the all-transient trace are `2 ^ attempt` for every
attempt but the last, in order. -/
theorem transientTraceFrom_sleepSecs (rem : Nat) :
    ∀ att, sleepSecs (transientTraceFrom att rem) =
      (List.range (rem - 1)).map (fun i => 2 ^ (att + i)) := by
  induction rem with
  | zero => intro att; rfl
  | succ m ih =>
    intro att
    cases m with
    | zero => rfl
    | succ m' =>
      have h := ih (att + 1)
      rw [transientTraceFrom]
      simp only [gt_iff_lt, Nat.succ_pos, if_true, sleepSecs,
        Nat.succ_sub_one]
      rw [h, List.range_succ_eq_map]
      simp only [List.map_cons, List.map_map, Nat.add_zero, Nat.succ_sub_one]
      refine congrArg₂ List.cons rfl ?_
      refine List.map_congr_left ?_
      intro i _
      simp only [Function.comp_apply]
      congr 1
      omega

/-- C8: over a transport whose every attempt raises a transient failure
(timeout or connection error), `_make_request_with_retry` makes exactly
`max_retries` attempts, sleeps exactly `2 ^ k` seconds after the failed
attempt of 0-based index `k` for every attempt but the last (no sleep
follows the final failure), and then raises the generic `APIError`
wrapping the last transport exception. -/
theorem c8_retry_transient_backoff (g : MusicGenerator)
    (behavior : Nat → PostOutcome) (msgs : Nat → String)
    (hb : ∀ k, behavior k = .raises (.transportError (msgs k)))
    (h1 : 1 ≤ g.max_retries) :
    make_request_with_retry g behavior =
      (transientTraceFrom 0 g.max_retries,
       .error (.apiError (retryFailMsg g.max_retries
         (some (.transportError (msgs (g.max_retries - 1))))) none)) ∧
    requestCount (transientTraceFrom 0 g.max_retries) = g.max_retries ∧
    sleepSecs (transientTraceFrom 0 g.max_retries) =
      (List.range (g.max_retries - 1)).map (fun k => 2 ^ k) := by
  obtain ⟨m, hm⟩ : ∃ m, g.max_retries = m + 1 := ⟨g.max_retries - 1, by omega⟩
  refine ⟨?_, transientTraceFrom_requestCount _ _, ?_⟩
  · rw [make_request_with_retry, retryGo_transient behavior msgs _ hb]
    rw [hm]
    simp
  · rw [transientTraceFrom_sleepSecs]
    simp

/-- C8 (witness): the default generator (`max_retries = 3`) against three
connection timeouts: requests at attempts 0, 1, 2 with sleeps of 1 and 2
seconds between them, then the wrapped generic error. -/
theorem c8_witness :
    make_request_with_retry genDefault behTimeout =
      (transientTraceFrom 0 genDefault.max_retries,
       .error (.apiError (retryFailMsg genDefault.max_retries
         (some (.transportError "Connection timeout"))) none)) ∧
    requestCount (transientTraceFrom 0 genDefault.max_retries) =
      genDefault.max_retries ∧
    sleepSecs (transientTraceFrom 0 genDefault.max_retries) =
      (List.range (genDefault.max_retries - 1)).map (fun k => 2 ^ k) :=
  c8_retry_transient_backoff genDefault behTimeout
    (fun _ => "Connection timeout") (fun _ => rfl) (by decide)

/-- C6: `get_statistics` reports the collection size, the number of liked
records, the difference as the disliked count, and the exact like rate
(`0` on an empty collection). -/
theorem c6_statistics (prefs : List MusicPreference) :
    (get_statistics prefs).total_generations = prefs.length ∧
    (get_statistics prefs).liked_count = prefs.countP (·.liked) ∧
    (get_statistics prefs).disliked_count =
      prefs.length - prefs.countP (·.liked) ∧
    (0 < prefs.length →
      (get_statistics prefs).like_rate =
        (prefs.countP (·.liked) : Rat) / (prefs.length : Rat)) ∧
    (prefs.length = 0 → (get_statistics prefs).like_rate = 0) := by
  refine ⟨rfl, ?_, ?_, ?_, ?_⟩
  · simp [get_statistics, List.countP_eq_length_filter]
  · simp [get_statistics, List.countP_eq_length_filter]
  · intro h
    simp [get_statistics, List.countP_eq_length_filter, h]
  · intro h
    simp [get_statistics, h]

/-- C6 (witness): the statistics on two liked and one disliked record:
total 3, liked 2, disliked 1, like rate 2/3. -/
theorem c6_witness :
    (get_statistics statsSample).total_generations = 3 ∧
    (get_statistics statsSample).liked_count = 2 ∧
    (get_statistics statsSample).disliked_count = 1 ∧
    (get_statistics statsSample).like_rate = 2 / 3 := by
  have h := (c6_statistics statsSample).2.2.2.1 (by decide)
  refine ⟨rfl, rfl, rfl, ?_⟩
  rw [h]
  norm_num [statsSample, mkLiked]

/-- Round trip of one record through `asdict` and `MusicPreference(**p)`:
the identity whenever the record's timestamp is non-empty (which
`__post_init__` guarantees for every constructed record). -/
theorem fromDict_asdict (now : String) (p : MusicPreference)
    (h : p.timestamp ≠ "") : fromDict now (asdict p) = p := by
  cases p with
  | mk prompt liked context activity mood timestamp duration_ms =>
    simp_all [fromDict, asdict, mkMusicPreference, strTruthy]

/-- C7: `export_preferences` followed by `import_preferences` with
`merge = false` into a fresh empty store reproduces the original record
sequence — same records, same field values (timestamps included), same
order. -/
theorem c7_export_import_roundtrip (prefs : List MusicPreference)
    (now : String) (h : ∀ p ∈ prefs, p.timestamp ≠ "") :
    import_preferences [] (.ok (export_preferences prefs)) false now =
      (.ok (), prefs) := by
  simp only [import_preferences, export_preferences, List.map_map,
    Bool.false_eq_true, if_false]
  refine congrArg (Prod.mk (Except.ok ())) ?_
  induction prefs with
  | nil => rfl
  | cons p rest ih =>
    simp only [List.map_cons, List.mem_cons] at *
    rw [Function.comp_apply, fromDict_asdict now p (h p (Or.inl rfl))]
    rw [ih (fun q hq => h q (Or.inr hq))]

/-- C7 (witness): the round trip on a concrete three-record store. -/
theorem c7_witness :
    import_preferences [] (.ok (export_preferences statsSample)) false
      "2025-03-01T00:00:00" = (.ok (), statsSample) :=
  c7_export_import_roundtrip statsSample "2025-03-01T00:00:00" (by decide)

/-- C10: a failed read or parse of the import file makes
`import_preferences` surface the exception to its caller with the
in-memory collection unchanged (every mutation happens after the read),
whereas a failed load of an existing preferences file at startup resets
the collection to empty. -/
theorem c10_import_error_propagates (prefs : List MusicPreference)
    (e : PyExn) (merge : Bool) (now : String)
    (prefs0 : List MusicPreference) (e2 : PyExn) (now2 : String) :
    import_preferences prefs (.error e) merge now = (.error e, prefs) ∧
    load prefs0 (some (.error e2)) now2 = [] :=
  ⟨rfl, rfl⟩

end MusicMCP
